import Mathlib

/-
Verification of the TUX Droid control core (ScayTux repository).

Shallow embedding of:
  - src/tux/actions.py      (ActionType, TuxAction, FIRMWARE_COMMANDS)
  - src/tux/driver.py       (TuxDriver: _build_command, send_command,
                             execute_action, disconnect, is_connected)
  - src/stubs/mock_driver.py (MockTuxDriver: connect, disconnect,
                             execute_action, _update_state, _log_action,
                             get_status)

Modelling conventions:
  - Python dict values in an action's params bag are integers or strings
    (the spec's data model); they are embedded as `PValue`.
  - A params dict is an association list with first-match lookup
    (Python dict keys are unique, so this is faithful).
  - Python operations that can raise (int() on a non-numeric string,
    bytes() on an out-of-range value, int - str) are embedded as Option:
    `none` marks the raised exception.
  - Python's `%` on int agrees with Lean's `Int.emod` for a positive
    modulus (result in [0, modulus)), so `%` is used directly.
  - External USB I/O outcomes are abstracted as boolean parameters
    (`writeOk`, `usbOk`): the pyusb call either succeeds or fails; the
    surrounding Python control flow is embedded exactly.
-/

/-- Value stored in an action's params dict: integer or string
(src/tux/actions.py, `params: Dict[str, Any]`, spec data model). -/
inductive PValue : Type where
  | int (n : Int) : PValue
  | str (s : String) : PValue
deriving DecidableEq

/-- Params bag: association list embedding the Python dict. -/
def Params : Type := List (String × PValue)

instance : DecidableEq Params := by
  unfold Params
  infer_instance

/-- Python `params.get(key)`: first binding of `key`, if any. -/
def Params.get : Params → String → Option PValue
  | [], _ => none
  | (k, v) :: rest, key => if k = key then some v else Params.get rest key

/-- Python `params.get(key, default)`. -/
def Params.getD (params : Params) (key : String) (dflt : PValue) : PValue :=
  (params.get key).getD dflt

/-- Python `int(v)`: identity on int, numeric parse on str
(raises ValueError, i.e. `none`, on a non-numeric string). -/
def pyInt : PValue → Option Int
  | .int n => some n
  | .str s => s.toInt?

/-- Python `bytes([... v ...])` element check: v must lie in 0..255,
otherwise `bytes` raises ValueError (`none`). -/
def byteOf (n : Int) : Option Nat :=
  if 0 ≤ n ∧ n < 256 then some n.toNat else none

/-- Conversion of one params value to a wire byte: `int(v)` then the
`bytes` range check. -/
def pyByte (v : PValue) : Option Nat :=
  (pyInt v).bind byteOf

/-- ActionType enumeration (src/tux/actions.py lines 14-60). -/
inductive ActionType : Type where
  | BLINK_EYES | OPEN_EYES | CLOSE_EYES | STOP_EYES
  | MOVE_MOUTH | OPEN_MOUTH | CLOSE_MOUTH | STOP_MOUTH
  | WAVE_WINGS | RAISE_WINGS | LOWER_WINGS | STOP_WINGS | RESET_WINGS
  | SPIN_LEFT | SPIN_RIGHT | STOP_SPIN
  | LED_ON | LED_OFF | LED_TOGGLE | LED_PULSE | LED_SET_INTENSITY
  | PLAY_SOUND | MUTE | UNMUTE
  | SLEEP | WAKE_UP
  | IR_ON | IR_OFF | IR_SEND
deriving DecidableEq

/-- String value of each enum member (ActionType is a str Enum). -/
def ActionType.value : ActionType → String
  | .BLINK_EYES => "blink_eyes"
  | .OPEN_EYES => "open_eyes"
  | .CLOSE_EYES => "close_eyes"
  | .STOP_EYES => "stop_eyes"
  | .MOVE_MOUTH => "move_mouth"
  | .OPEN_MOUTH => "open_mouth"
  | .CLOSE_MOUTH => "close_mouth"
  | .STOP_MOUTH => "stop_mouth"
  | .WAVE_WINGS => "wave_wings"
  | .RAISE_WINGS => "raise_wings"
  | .LOWER_WINGS => "lower_wings"
  | .STOP_WINGS => "stop_wings"
  | .RESET_WINGS => "reset_wings"
  | .SPIN_LEFT => "spin_left"
  | .SPIN_RIGHT => "spin_right"
  | .STOP_SPIN => "stop_spin"
  | .LED_ON => "led_on"
  | .LED_OFF => "led_off"
  | .LED_TOGGLE => "led_toggle"
  | .LED_PULSE => "led_pulse"
  | .LED_SET_INTENSITY => "led_set_intensity"
  | .PLAY_SOUND => "play_sound"
  | .MUTE => "mute"
  | .UNMUTE => "unmute"
  | .SLEEP => "sleep"
  | .WAKE_UP => "wake_up"
  | .IR_ON => "ir_on"
  | .IR_OFF => "ir_off"
  | .IR_SEND => "ir_send"

/-- TuxAction dataclass (src/tux/actions.py lines 78-93): an action type
plus its params bag (never null; the empty bag is `[]`). -/
structure TuxAction where
  action_type : ActionType
  params : Params
deriving DecidableEq

/-- FIRMWARE_COMMANDS table (src/tux/actions.py lines 226-260), embedded
as a partial map: `dict.get` on a missing key yields None, i.e. `none`.
UNMUTE, LED_PULSE and LED_SET_INTENSITY have no entry in the source
table; WAKE_UP shares SLEEP's code 0xB7. -/
def FIRMWARE_COMMANDS : ActionType → Option Nat
  | .BLINK_EYES => some 0x40
  | .STOP_EYES => some 0x32
  | .OPEN_EYES => some 0x33
  | .CLOSE_EYES => some 0x38
  | .MOVE_MOUTH => some 0x41
  | .OPEN_MOUTH => some 0x34
  | .CLOSE_MOUTH => some 0x35
  | .STOP_MOUTH => some 0x36
  | .WAVE_WINGS => some 0x80
  | .STOP_WINGS => some 0x30
  | .RESET_WINGS => some 0x31
  | .RAISE_WINGS => some 0x39
  | .LOWER_WINGS => some 0x3A
  | .SPIN_LEFT => some 0x82
  | .SPIN_RIGHT => some 0x83
  | .STOP_SPIN => some 0x37
  | .LED_ON => some 0x1A
  | .LED_OFF => some 0x1B
  | .LED_TOGGLE => some 0x9A
  | .PLAY_SOUND => some 0x90
  | .MUTE => some 0x92
  | .SLEEP => some 0xB7
  | .WAKE_UP => some 0xB7
  | .IR_ON => some 0x17
  | .IR_OFF => some 0x18
  | .IR_SEND => some 0x91
  | .LED_PULSE => none
  | .LED_SET_INTENSITY => none
  | .UNMUTE => none

/-- Symbolic LED-target mapping in the one-parameter branch
(src/tux/driver.py line 590): a Python dict .get with default 1. -/
def targetMap (s : String) : Nat :=
  if s = "both" then 3
  else if s = "left" then 1
  else if s = "right" then 2
  else 1

/-- Sleep-mode remap (src/tux/driver.py lines 607-608):
`mode_map.get(params.get("mode", "normal"), 2)`. A non-string mode value
misses every dict key, so it takes the default 2. -/
def sleepModeVal (params : Params) : Nat :=
  match params.getD "mode" (.str "normal") with
  | .str s =>
      if s = "awake" then 0
      else if s = "quick" then 1
      else if s = "normal" then 2
      else if s = "deep" then 4
      else 2
  | .int _ => 2

/-- One-parameter lookup chain (src/tux/driver.py line 587):
`params.get("count", params.get("target", params.get("state", 1)))`. -/
def param1_lookup (params : Params) : PValue :=
  params.getD "count" (params.getD "target" (params.getD "state" (.int 1)))

/-- TuxDriver._build_command (src/tux/driver.py lines 562-612).
Branches by command-code range exactly as the source does; `none` marks
an exception raised while converting a param to a byte (caught in
execute_action). -/
def build_command (action : TuxAction) (command_code : Nat) : Option (List Nat) :=
  let params := action.params
  if command_code < 0x40 then
    -- No parameters - command only
    some [command_code, 0x00, 0x00, 0x00]
  else if command_code < 0x80 then
    -- 1 parameter
    match param1_lookup params with
    | .str s => some [command_code, targetMap s, 0x00, 0x00]
    | .int n => (byteOf n).map (fun b => [command_code, b, 0x00, 0x00])
  else if command_code < 0xC0 then
    -- 2 parameters
    (pyByte (params.getD "count" (params.getD "angle" (.int 1)))).bind (fun b1 =>
      (pyByte (params.getD "speed" (params.getD "delay"
          (params.getD "volume" (.int 3))))).map (fun b2 =>
        [command_code, b1, b2, 0x00]))
  else
    -- 3 parameters, with the SLEEP / WAKE_UP special cases
    let param1 : PValue :=
      if action.action_type = ActionType.SLEEP then .int (sleepModeVal params)
      else if action.action_type = ActionType.WAKE_UP then .int 0
      else params.getD "param1" (params.getD "mode" (.int 0))
    (pyByte param1).bind (fun b1 =>
      (pyByte (params.getD "param2" (.int 0))).bind (fun b2 =>
        (pyByte (params.getD "param3" (.int 0))).map (fun b3 =>
          [command_code, b1, b2, b3])))

/-- Command encoder: FIRMWARE_COMMANDS lookup followed by _build_command
(src/tux/driver.py lines 533-539). -/
def encode (action : TuxAction) : Option (List Nat) :=
  (FIRMWARE_COMMANDS action.action_type).bind (build_command action)

/-- CMD_SIZE from the firmware protocol (src/tux/driver.py line 32). -/
def CMD_SIZE : Nat := 4

/-- Padding applied by send_command (src/tux/driver.py line 494):
`command.ljust(CMD_SIZE, b'\x00')[:CMD_SIZE]`. -/
def send_pad (command : List Nat) : List Nat :=
  (command ++ List.replicate (CMD_SIZE - command.length) 0).take CMD_SIZE

/-- TuxDriver connection-state record (src/tux/driver.py lines 126-141).
The `device` flag embeds `self._device is not None`; the USB handle and
endpoints themselves are external resources with no observable structure
here. -/
structure TuxDriver where
  connected : Bool
  device : Bool
  commands_sent : Nat
  commands_failed : Nat
  kernel_driver_detached : Bool
  last_error : Option String
deriving DecidableEq

/-- Freshly constructed TuxDriver (src/tux/driver.py __init__). -/
def TuxDriver.init : TuxDriver :=
  { connected := false, device := false, commands_sent := 0,
    commands_failed := 0, kernel_driver_detached := false,
    last_error := none }

/-- TuxDriver.is_connected (src/tux/driver.py lines 471-473):
`self._connected and self._device is not None`. -/
def TuxDriver.is_connected (st : TuxDriver) : Bool :=
  st.connected && st.device

/-- TuxDriver.send_command (src/tux/driver.py lines 475-514).
`writeOk` is the outcome of `_usb_write` on the padded command
(that helper catches all its own exceptions and returns a bool, so the
enclosing `except` branch is unreachable). Not connected: failure counter
up and false. Write ok: sent counter up and true. Write failed: failure
counter up and false. -/
def TuxDriver.send_command (st : TuxDriver) (command : List Nat)
    (writeOk : Bool) : Bool × TuxDriver :=
  if !st.is_connected then
    (false, { st with commands_failed := st.commands_failed + 1 })
  else
    let _padded := send_pad command
    if writeOk then
      (true, { st with commands_sent := st.commands_sent + 1 })
    else
      (false, { st with commands_failed := st.commands_failed + 1 })

/-- TuxDriver.execute_action (src/tux/driver.py lines 516-560).
Early returns: not connected, or no FIRMWARE_COMMANDS entry → false with
the state untouched. An exception inside the try block (raised by
_build_command's conversions) is caught: last_error is set, false.
Otherwise the built command is delegated to send_command. -/
def TuxDriver.execute_action (st : TuxDriver) (action : TuxAction)
    (writeOk : Bool) : Bool × TuxDriver :=
  if !st.is_connected then
    (false, st)
  else
    match FIRMWARE_COMMANDS action.action_type with
    | none => (false, st)
    | some command_code =>
      match build_command action command_code with
      | none => (false, { st with last_error := some "Execute action failed" })
      | some command_bytes => st.send_command command_bytes writeOk

/-- TuxDriver.disconnect (src/tux/driver.py lines 434-469).
`usbOk` is whether `import usb.util` succeeds (the only statement in the
try block that can raise: dispose_resources and attach_kernel_driver are
each wrapped in their own bare try/except). On success the driver
unconditionally clears the connection fields and returns True; when the
pyusb import fails the except branch records last_error and returns False
without touching the connection fields. -/
def TuxDriver.disconnect (st : TuxDriver) (usbOk : Bool) : Bool × TuxDriver :=
  if usbOk then
    (true, { st with connected := false, device := false })
  else
    (false, { st with last_error := some "Disconnect error" })

/-- Simulated DeviceState (src/stubs/mock_driver.py lines 55-63). -/
structure DeviceState where
  eyes : String
  mouth : String
  wings : String
  leds_left : String
  leds_right : String
  sleeping : Bool
  rotation : Int
deriving DecidableEq

/-- Initial simulated state (src/stubs/mock_driver.py lines 55-63,
identical to reset_state). -/
def initDeviceState : DeviceState :=
  { eyes := "open", mouth := "closed", wings := "lowered",
    leds_left := "off", leds_right := "off", sleeping := false,
    rotation := 0 }

/-- One action-history record (src/stubs/mock_driver.py _log_action,
lines 259-267). The wall-clock timestamp carries no program state and is
omitted. -/
structure HistoryEntry where
  action : String
  params : Params
  message : String
  state_snapshot : DeviceState
deriving DecidableEq

/-- MockTuxDriver state (src/stubs/mock_driver.py __init__). The
artificial delay only sleeps and is dropped. -/
structure MockTuxDriver where
  connected : Bool
  state : DeviceState
  action_history : List HistoryEntry
deriving DecidableEq

/-- Freshly constructed MockTuxDriver. -/
def MockTuxDriver.init : MockTuxDriver :=
  { connected := false, state := initDeviceState, action_history := [] }

/-- Python f-string rendering of a params value. -/
def pvStr : PValue → String
  | .int n => toString n
  | .str s => s

/-- Python `v in ["both", "left"]`-style membership test: an int value is
never equal to a string element. -/
def pvIn (v : PValue) (l : List String) : Bool :=
  match v with
  | .str s => l.contains s
  | .int _ => false

/-- MockTuxDriver._update_state (src/stubs/mock_driver.py lines 129-230):
per-action state transition and human-readable message. `none` embeds the
TypeError Python raises for SPIN_LEFT / SPIN_RIGHT when the angle value
is a string (int - str in the rotation update); every other branch is
total. -/
def update_state (action_type : ActionType) (params : Params)
    (st : DeviceState) : Option (DeviceState × String) :=
  match action_type with
  | .BLINK_EYES =>
      some (st, "Eyes blinked " ++ pvStr (params.getD "count" (.int 1)) ++ " time(s)")
  | .OPEN_EYES => some ({ st with eyes := "open" }, "Eyes are now open")
  | .CLOSE_EYES => some ({ st with eyes := "closed" }, "Eyes are now closed")
  | .STOP_EYES => some (st, "Eye movement stopped")
  | .MOVE_MOUTH =>
      some (st, "Mouth moved " ++ pvStr (params.getD "count" (.int 1)) ++ " time(s)")
  | .OPEN_MOUTH => some ({ st with mouth := "open" }, "Mouth is now open")
  | .CLOSE_MOUTH => some ({ st with mouth := "closed" }, "Mouth is now closed")
  | .STOP_MOUTH => some (st, "Mouth movement stopped")
  | .WAVE_WINGS =>
      some (st, "Wings waved " ++ pvStr (params.getD "count" (.int 1))
        ++ " time(s) at speed " ++ pvStr (params.getD "speed" (.int 3)))
  | .RAISE_WINGS => some ({ st with wings := "raised" }, "Wings are now raised")
  | .LOWER_WINGS => some ({ st with wings := "lowered" }, "Wings are now lowered")
  | .STOP_WINGS => some (st, "Wing movement stopped")
  | .RESET_WINGS => some ({ st with wings := "lowered" }, "Wings reset to default position")
  | .SPIN_LEFT =>
      match params.getD "angle" (.int 4) with
      | .int n =>
          some ({ st with rotation := (st.rotation - n * 45) % 360 },
            "Spun left " ++ toString n ++ " units at speed "
              ++ pvStr (params.getD "speed" (.int 3)))
      | .str _ => none
  | .SPIN_RIGHT =>
      match params.getD "angle" (.int 4) with
      | .int n =>
          some ({ st with rotation := (st.rotation + n * 45) % 360 },
            "Spun right " ++ toString n ++ " units at speed "
              ++ pvStr (params.getD "speed" (.int 3)))
      | .str _ => none
  | .STOP_SPIN => some (st, "Spinning stopped")
  | .LED_ON =>
      let target := params.getD "target" (.str "both")
      some ({ st with
          leds_left := if pvIn target ["both", "left"] then "on" else st.leds_left,
          leds_right := if pvIn target ["both", "right"] then "on" else st.leds_right },
        "LED(s) " ++ pvStr target ++ " turned on")
  | .LED_OFF =>
      let target := params.getD "target" (.str "both")
      some ({ st with
          leds_left := if pvIn target ["both", "left"] then "off" else st.leds_left,
          leds_right := if pvIn target ["both", "right"] then "off" else st.leds_right },
        "LED(s) " ++ pvStr target ++ " turned off")
  | .LED_TOGGLE =>
      some (st, "LEDs toggled " ++ pvStr (params.getD "count" (.int 1)) ++ " time(s)")
  | .LED_PULSE =>
      some (st, "LEDs pulsed " ++ pvStr (params.getD "count" (.int 5)) ++ " time(s)")
  | .PLAY_SOUND =>
      some (st, "Playing sound #" ++ pvStr (params.getD "sound_number" (.int 0))
        ++ " at volume " ++ pvStr (params.getD "volume" (.int 100)))
  | .MUTE => some (st, "Audio muted")
  | .UNMUTE => some (st, "Audio unmuted")
  | .SLEEP =>
      some ({ st with sleeping := true },
        "TUX is now sleeping (mode: " ++ pvStr (params.getD "mode" (.str "normal")) ++ ")")
  | .WAKE_UP => some ({ st with sleeping := false }, "TUX is now awake")
  | .LED_SET_INTENSITY => some (st, "Action led_set_intensity executed")
  | .IR_ON => some (st, "Action ir_on executed")
  | .IR_OFF => some (st, "Action ir_off executed")
  | .IR_SEND => some (st, "Action ir_send executed")

/-- MockTuxDriver.connect (src/stubs/mock_driver.py lines 70-77): set
connected, then log a CONNECT entry (snapshot of the unchanged state). -/
def MockTuxDriver.connect (st : MockTuxDriver) : Bool × MockTuxDriver :=
  (true,
    { st with
        connected := true,
        action_history := st.action_history
          ++ [⟨"CONNECT", [], "Connected to virtual TUX Droid", st.state⟩] })

/-- MockTuxDriver.disconnect (src/stubs/mock_driver.py lines 79-85):
clear connected, then log a DISCONNECT entry. -/
def MockTuxDriver.disconnect (st : MockTuxDriver) : Bool × MockTuxDriver :=
  (true,
    { st with
        connected := false,
        action_history := st.action_history
          ++ [⟨"DISCONNECT", [], "Disconnected from virtual TUX Droid", st.state⟩] })

/-- MockTuxDriver.is_connected (src/stubs/mock_driver.py lines 87-89). -/
def MockTuxDriver.is_connected (st : MockTuxDriver) : Bool :=
  st.connected

/-- MockTuxDriver.execute_action (src/stubs/mock_driver.py lines
101-127): not connected → (False, unchanged); otherwise _update_state
runs first, then _log_action appends one entry whose snapshot is the
post-update state. `none` propagates the TypeError _update_state can
raise (uncaught in the source). -/
def MockTuxDriver.execute_action (st : MockTuxDriver) (action : TuxAction) :
    Option (Bool × MockTuxDriver) :=
  if !st.connected then
    some (false, st)
  else
    match update_state action.action_type action.params st.state with
    | none => none
    | some (state2, message) =>
        some (true,
          { st with
              state := state2,
              action_history := st.action_history
                ++ [⟨action.action_type.value, action.params, message, state2⟩] })

/-- Status record returned by MockTuxDriver.get_status
(src/stubs/mock_driver.py lines 274-281). -/
structure MockStatus where
  connected : Bool
  driver_type : String
  simulated_state : DeviceState
  actions_executed : Nat
deriving DecidableEq

/-- MockTuxDriver.get_status: actions_executed is the history length. -/
def MockTuxDriver.get_status (st : MockTuxDriver) : MockStatus :=
  { connected := st.connected, driver_type := "mock",
    simulated_state := st.state,
    actions_executed := st.action_history.length }

/-- C1: the claim says byte 1 of the encoded SLEEP command is the
sleep-mode code (deep = 4, normal = 2) and byte 1 of WAKE_UP is 0. The
code disagrees: SLEEP and WAKE_UP share code 0xB7, which is below 0xC0,
so _build_command takes the two-parameter branch and byte 1 is the
count/angle lookup default 1 for all three inputs; the sleep-mode remap
in the three-parameter branch is dead code, and SLEEP and WAKE_UP encode
to identical bytes although the table comments them as distinguished by
params. -/
theorem sleep_encoding_divergence :
    encode ⟨.SLEEP, [("mode", .str "deep")]⟩ = some [0xB7, 1, 3, 0]
    ∧ encode ⟨.SLEEP, [("mode", .str "normal")]⟩ = some [0xB7, 1, 3, 0]
    ∧ encode ⟨.WAKE_UP, []⟩ = some [0xB7, 1, 3, 0]
    ∧ encode ⟨.SLEEP, [("mode", .str "deep")]⟩ = encode ⟨.WAKE_UP, []⟩ := by
  decide

/-- C2 counterexample: UNMUTE, LED_PULSE and LED_SET_INTENSITY are
ActionType members with no FIRMWARE_COMMANDS entry, and none of them
shares a code with another variant (they have no code at all), so the
claim that every non-alias ActionType has an entry is false. -/
theorem firmware_table_missing_entries :
    FIRMWARE_COMMANDS .UNMUTE = none
    ∧ FIRMWARE_COMMANDS .LED_PULSE = none
    ∧ FIRMWARE_COMMANDS .LED_SET_INTENSITY = none := by
  decide

/-- C2 amended: every ActionType other than UNMUTE, LED_PULSE and
LED_SET_INTENSITY has a FIRMWARE_COMMANDS entry (WAKE_UP shares SLEEP's
code 0xB7); lookup of the missing three yields none, never a default
code. -/
theorem firmware_table_covers_rest (t : ActionType)
    (h1 : t ≠ .UNMUTE) (h2 : t ≠ .LED_PULSE) (h3 : t ≠ .LED_SET_INTENSITY) :
    (FIRMWARE_COMMANDS t).isSome = true := by
  cases t <;> simp_all [FIRMWARE_COMMANDS]

/-- C2 witness: the amended coverage theorem applied at BLINK_EYES. -/
theorem firmware_table_covers_rest_witness :
    (FIRMWARE_COMMANDS ActionType.BLINK_EYES).isSome = true :=
  firmware_table_covers_rest ActionType.BLINK_EYES (by decide) (by decide)
    (by decide)

/-- C3 counterexample: WAVE_WINGS has a table entry and a params bag with
the integer value 300 for count, yet the encoder produces no wire command
at all (bytes() raises ValueError on an out-of-range element), so the
claim that every integer-or-string params bag yields a 4-byte command is
false. -/
theorem encode_range_failure :
    FIRMWARE_COMMANDS ActionType.WAVE_WINGS = some 0x80
    ∧ encode ⟨.WAVE_WINGS, [("count", .int 300)]⟩ = none := by
  decide

/-- Helper for C3: every command _build_command actually returns has
exactly 4 bytes, across all four code-range branches. -/
theorem build_command_length (a : TuxAction) (c : Nat) (cmd : List Nat)
    (h : build_command a c = some cmd) : cmd.length = 4 := by
  simp only [build_command] at h
  split at h
  · obtain rfl := Option.some.inj h
    rfl
  · split at h
    · split at h
      · obtain rfl := Option.some.inj h
        rfl
      · obtain ⟨b, hb, rfl⟩ := Option.map_eq_some'.mp h
        rfl
    · split at h
      · obtain ⟨b1, hb1, h2⟩ := Option.bind_eq_some.mp h
        obtain ⟨b2, hb2, rfl⟩ := Option.map_eq_some'.mp h2
        rfl
      · obtain ⟨b1, hb1, h2⟩ := Option.bind_eq_some.mp h
        obtain ⟨b2, hb2, h3⟩ := Option.bind_eq_some.mp h2
        obtain ⟨b3, hb3, rfl⟩ := Option.map_eq_some'.mp h3
        rfl

/-- Helper for C3: send_command's ljust-then-truncate padding fixes every
4-byte command. -/
theorem send_pad_of_length4 (l : List Nat) (h : l.length = 4) :
    send_pad l = l := by
  have h0 : CMD_SIZE - l.length = 0 := by simp [CMD_SIZE, h]
  simp only [send_pad, h0, List.replicate_zero, List.append_nil]
  exact List.take_of_length_le (by simp [CMD_SIZE, h])

/-- C3 amended: whenever the encoder returns a wire command it has
exactly 4 bytes and send_command's padding leaves it unchanged; when a
parameter value cannot be made a byte the encoder produces no command at
all (an exception) rather than a command of another length. -/
theorem encode_length_four (a : TuxAction) (cmd : List Nat)
    (h : encode a = some cmd) : cmd.length = 4 ∧ send_pad cmd = cmd := by
  obtain ⟨c, hc, hb⟩ := Option.bind_eq_some.mp h
  have hl := build_command_length a c cmd hb
  exact ⟨hl, send_pad_of_length4 cmd hl⟩

/-- C3 witness: the amended theorem applied to a concrete encoded
command. -/
theorem encode_length_four_witness :
    encode ⟨.BLINK_EYES, [("count", .int 2)]⟩ = some [0x40, 2, 0, 0]
    ∧ ([0x40, 2, 0, 0] : List Nat).length = 4
      ∧ send_pad [0x40, 2, 0, 0] = [0x40, 2, 0, 0] :=
  ⟨by decide, encode_length_four ⟨.BLINK_EYES, [("count", .int 2)]⟩
    [0x40, 2, 0, 0] (by decide)⟩

/-- C4 counterexample: BLINK_EYES has code 0x40, in the one-parameter
range, and a params bag with the integer value 300 for count, yet the
encoder emits no [c, p, 0, 0] command at all (bytes() raises ValueError
on the out-of-range element), so the claim that the encoder emits
[c, p, 0, 0] for every params bag in this range is false. -/
theorem one_param_range_failure :
    FIRMWARE_COMMANDS ActionType.BLINK_EYES = some 0x40
    ∧ encode ⟨.BLINK_EYES, [("count", .int 300)]⟩ = none := by
  decide

/-- C4 amended: for a code-table entry below 0x40 the encoder emits
[c, 0, 0, 0]; for an entry in 0x40..0x7F the parameter is taken from
count, else target, else state, else 1: a string value is remapped
through the both/left/right table with default 1 and the encoder emits
[c, p, 0, 0], an integer value that is a byte passes through unchanged
into [c, p, 0, 0], and an integer value outside 0..255 makes bytes()
raise so that no command is emitted at all. -/
theorem one_param_layout (a : TuxAction) (c : Nat)
    (hc : FIRMWARE_COMMANDS a.action_type = some c) :
    (c < 0x40 → encode a = some [c, 0, 0, 0])
    ∧ (0x40 ≤ c → c < 0x80 →
        ((∀ s : String, param1_lookup a.params = .str s →
            encode a = some [c, targetMap s, 0, 0])
         ∧ (∀ n : Int, param1_lookup a.params = .int n → 0 ≤ n → n < 256 →
            encode a = some [c, n.toNat, 0, 0])
         ∧ (∀ n : Int, param1_lookup a.params = .int n → (n < 0 ∨ 256 ≤ n) →
            encode a = none))) := by
  have he : encode a = build_command a c := by simp [encode, hc]
  refine ⟨?_, ?_⟩
  · intro h
    rw [he]
    simp [build_command, h]
  · intro h1 h2
    refine ⟨?_, ?_, ?_⟩
    · intro s hs
      rw [he]
      simp [build_command, Nat.not_lt.mpr h1, h2, hs]
    · intro n hn hn0 hn255
      rw [he]
      simp [build_command, Nat.not_lt.mpr h1, h2, hn, byteOf, hn0, hn255]
    · intro n hn hout
      rw [he]
      have hnb : ¬(0 ≤ n ∧ n < 256) := by omega
      simp [build_command, Nat.not_lt.mpr h1, h2, hn, byteOf, hnb]

/-- C4 witness: the layout theorem at MOVE_MOUTH (one-parameter, integer
count, both a byte count and an out-of-range count) and STOP_SPIN
(zero-parameter). -/
theorem one_param_layout_witness :
    encode ⟨.MOVE_MOUTH, [("count", .int 2)]⟩ = some [0x41, 2, 0, 0]
    ∧ encode ⟨.MOVE_MOUTH, [("count", .int 300)]⟩ = none
    ∧ encode ⟨.STOP_SPIN, []⟩ = some [0x37, 0, 0, 0] := by
  refine ⟨?_, ?_, ?_⟩
  · exact (((one_param_layout ⟨.MOVE_MOUTH, [("count", .int 2)]⟩ 0x41
      (by decide)).2 (by decide) (by decide)).2.1) 2 (by decide) (by decide)
      (by decide)
  · exact (((one_param_layout ⟨.MOVE_MOUTH, [("count", .int 300)]⟩ 0x41
      (by decide)).2 (by decide) (by decide)).2.2) 300 (by decide) (by decide)
  · exact (one_param_layout ⟨.STOP_SPIN, []⟩ 0x37 (by decide)).1 (by decide)

/-- Scenario action for C5: blink_eyes(count=3)
(TuxAction.blink_eyes factory, src/tux/actions.py lines 95-98). -/
def blink3 : TuxAction := ⟨.BLINK_EYES, [("count", .int 3)]⟩

/-- Scenario state for C5: mock driver right after connect(). -/
def scenario_st1 : MockTuxDriver := (MockTuxDriver.init.connect).2

/-- Scenario run for C5: execute_action(blink_eyes(count=3)) after
connect(). -/
def scenario_run : Option (Bool × MockTuxDriver) :=
  scenario_st1.execute_action blink3

/-- C5 counterexample: after connect() and one blink, actions_executed
is 2, not 1 as the claim states, because connect() itself appends a
CONNECT entry to the history that get_status counts. -/
theorem blink_scenario_counts_connect :
    scenario_run.map (fun r => (r.2.get_status).actions_executed) = some 2
    ∧ scenario_run.map (fun r => (r.2.get_status).actions_executed)
        ≠ some 1 := by
  decide

/-- C5 amended: the connect-then-blink scenario succeeds and get_status
reports connected true, driver kind mock, the simulated eyes unchanged,
and actions_executed 2 (the CONNECT history entry plus the blink entry);
the last history entry's message is the blink message. -/
theorem blink_scenario_status :
    scenario_run.map (fun r => r.1) = some true
    ∧ scenario_run.map (fun r => (r.2.get_status).connected) = some true
    ∧ scenario_run.map (fun r => (r.2.get_status).driver_type) = some "mock"
    ∧ scenario_run.map (fun r => (r.2.get_status).simulated_state.eyes)
        = some scenario_st1.state.eyes
    ∧ scenario_run.map (fun r => (r.2.get_status).actions_executed) = some 2
    ∧ scenario_run.map
        (fun r => (r.2.action_history.getLast?).map HistoryEntry.message)
        = some (some "Eyes blinked 3 time(s)") := by
  decide

/-- C6 counterexample: on a disconnected real driver, execute_action
returns False without touching commands_failed (the early not-connected
return precedes send_command, which is where the counter lives), so the
claim that every False return increments the counter is false. -/
theorem execute_fail_no_counter :
    (TuxDriver.init.execute_action ⟨.BLINK_EYES, [("count", .int 1)]⟩ true).1
      = false
    ∧ ((TuxDriver.init.execute_action ⟨.BLINK_EYES, [("count", .int 1)]⟩
        true).2).commands_failed = TuxDriver.init.commands_failed := by
  decide

/-- C6 amended: a False return of execute_action increments
commands_failed exactly when the failure happens inside send_command
(i.e. the driver was connected and the action encoded, and the write
failed); the early returns for a disconnected driver, a missing code
table entry or an encoding exception leave the counter unchanged. -/
theorem failed_counter_policy (a : TuxAction) (w : Bool) (st : TuxDriver)
    (h : (st.execute_action a w).1 = false) :
    ((st.execute_action a w).2).commands_failed =
      (if st.is_connected = true ∧ (encode a).isSome = true
       then st.commands_failed + 1 else st.commands_failed) := by
  unfold TuxDriver.execute_action at h ⊢
  by_cases hc : st.is_connected
  · cases hfc : FIRMWARE_COMMANDS a.action_type with
    | none => simp [hc, hfc, encode]
    | some c =>
      cases hbc : build_command a c with
      | none => simp [hc, hfc, hbc, encode]
      | some cmd =>
        simp only [hc, hfc, hbc, Bool.not_true, if_neg] at h ⊢
        unfold TuxDriver.send_command at h ⊢
        cases w with
        | true => simp [hc] at h
        | false => simp [hc, encode, hfc, hbc]
  · have hcf : st.is_connected = false := by
      cases hx : st.is_connected
      · rfl
      · exact absurd hx hc
    simp [hcf]

/-- C6 witness: the amended counter policy applied to the disconnected
fresh driver. -/
theorem failed_counter_policy_witness :
    ((TuxDriver.init.execute_action ⟨.STOP_EYES, []⟩ true).2).commands_failed
      = (if TuxDriver.init.is_connected = true
            ∧ (encode ⟨.STOP_EYES, []⟩).isSome = true
         then TuxDriver.init.commands_failed + 1
         else TuxDriver.init.commands_failed) :=
  failed_counter_policy ⟨.STOP_EYES, []⟩ true TuxDriver.init (by decide)

/-- C7: on a connected real driver, an action whose type has no code
table entry makes execute_action return False with the whole driver state
untouched (the embedding is a total function, so no exception escapes),
and in particular is_connected is unchanged. -/
theorem unknown_action_safe (a : TuxAction) (w : Bool) (st : TuxDriver)
    (hc : st.is_connected = true)
    (hu : FIRMWARE_COMMANDS a.action_type = none) :
    st.execute_action a w = (false, st)
    ∧ ((st.execute_action a w).2).is_connected = st.is_connected := by
  have heq : st.execute_action a w = (false, st) := by
    unfold TuxDriver.execute_action
    simp [hc, hu]
  exact ⟨heq, by rw [heq]⟩

/-- C7 witness: the no-entry theorem at UNMUTE on a connected driver. -/
theorem unknown_action_safe_witness :
    (TuxDriver.mk true true 0 0 false none).execute_action
        ⟨.UNMUTE, []⟩ true
      = (false, TuxDriver.mk true true 0 0 false none)
    ∧ (((TuxDriver.mk true true 0 0 false none).execute_action
        ⟨.UNMUTE, []⟩ true).2).is_connected
      = (TuxDriver.mk true true 0 0 false none).is_connected :=
  unknown_action_safe ⟨.UNMUTE, []⟩ true
    (TuxDriver.mk true true 0 0 false none) (by decide) (by decide)

/-- Rotation observed after running one action on the mock driver. -/
def rotation_after (a : TuxAction) (st : MockTuxDriver) : Option Int :=
  (st.execute_action a).map (fun r => r.2.state.rotation)

/-- C8: on a connected mock driver whose rotation is in [0, 360) (the
state invariant: it starts at 0 and every spin takes a mod 360),
spin_right with angle=8 leaves the rotation unchanged, and any
integer-angle spin_right / spin_left sets it to the previous value plus /
minus angle*45 taken mod 360, which again lies in [0, 360). -/
theorem spin_rotation_mod360 (st : MockTuxDriver) (n : Int)
    (hc : st.connected = true) (h0 : 0 ≤ st.state.rotation)
    (h1 : st.state.rotation < 360) :
    rotation_after ⟨.SPIN_RIGHT, [("angle", .int 8)]⟩ st
        = some st.state.rotation
    ∧ rotation_after ⟨.SPIN_RIGHT, [("angle", .int n)]⟩ st
        = some ((st.state.rotation + n * 45) % 360)
    ∧ rotation_after ⟨.SPIN_LEFT, [("angle", .int n)]⟩ st
        = some ((st.state.rotation - n * 45) % 360)
    ∧ (0 ≤ (st.state.rotation + n * 45) % 360
        ∧ (st.state.rotation + n * 45) % 360 < 360)
    ∧ (0 ≤ (st.state.rotation - n * 45) % 360
        ∧ (st.state.rotation - n * 45) % 360 < 360) := by
  refine ⟨?_, ?_, ?_, ⟨?_, ?_⟩, ⟨?_, ?_⟩⟩
  · simp [rotation_after, MockTuxDriver.execute_action, hc, update_state,
      Params.getD, Params.get]
    omega
  · simp [rotation_after, MockTuxDriver.execute_action, hc, update_state,
      Params.getD, Params.get]
  · simp [rotation_after, MockTuxDriver.execute_action, hc, update_state,
      Params.getD, Params.get]
  · omega
  · omega
  · omega
  · omega

/-- Connected fresh mock state used by the C8 witness. -/
def spinSt : MockTuxDriver :=
  { connected := true, state := initDeviceState, action_history := [] }

/-- C8 witness: the rotation theorem at the connected fresh mock state
with angle 3. -/
theorem spin_rotation_mod360_witness :
    rotation_after ⟨.SPIN_RIGHT, [("angle", .int 8)]⟩ spinSt
        = some spinSt.state.rotation
    ∧ rotation_after ⟨.SPIN_RIGHT, [("angle", .int 3)]⟩ spinSt
        = some ((spinSt.state.rotation + 3 * 45) % 360)
    ∧ rotation_after ⟨.SPIN_LEFT, [("angle", .int 3)]⟩ spinSt
        = some ((spinSt.state.rotation - 3 * 45) % 360)
    ∧ (0 ≤ (spinSt.state.rotation + 3 * 45) % 360
        ∧ (spinSt.state.rotation + 3 * 45) % 360 < 360)
    ∧ (0 ≤ (spinSt.state.rotation - 3 * 45) % 360
        ∧ (spinSt.state.rotation - 3 * 45) % 360 < 360) :=
  spin_rotation_mod360 spinSt 3 (by decide) (by decide) (by decide)

/-- C9: disconnect is total and idempotent on both transports. For the
real driver, `usbOk` is whether the pyusb import succeeds; whenever the
driver can actually be connected the import succeeded, which the
hypothesis records. Under it, after any disconnect the driver reports
not connected, a second disconnect returns the same boolean and leaves it
disconnected; the mock disconnect always returns True and leaves the mock
disconnected, twice in a row included, and both embeddings are total
functions (no exception). -/
theorem disconnect_idempotent (st : TuxDriver) (usbOk : Bool)
    (m : MockTuxDriver) (h : st.is_connected = true → usbOk = true) :
    ((st.disconnect usbOk).2).is_connected = false
    ∧ ((st.disconnect usbOk).2.disconnect usbOk).1 = (st.disconnect usbOk).1
    ∧ (((st.disconnect usbOk).2.disconnect usbOk).2).is_connected = false
    ∧ (m.disconnect).1 = true
    ∧ ((m.disconnect).2).is_connected = false
    ∧ ((m.disconnect).2.disconnect).1 = true
    ∧ (((m.disconnect).2.disconnect).2).is_connected = false := by
  cases usbOk with
  | true =>
      simp [TuxDriver.disconnect, MockTuxDriver.disconnect,
        TuxDriver.is_connected, MockTuxDriver.is_connected]
  | false =>
      have hcf : st.is_connected = false := by
        cases hx : st.is_connected
        · rfl
        · exact absurd (h hx) (by simp)
      simp [TuxDriver.disconnect, MockTuxDriver.disconnect,
        MockTuxDriver.is_connected]
      simp [TuxDriver.is_connected] at hcf ⊢
      exact hcf

/-- C9 witness: the idempotence theorem at the fresh real driver (with
the import succeeding) and the fresh mock driver. -/
theorem disconnect_idempotent_witness :
    ((TuxDriver.init.disconnect true).2).is_connected = false
    ∧ ((TuxDriver.init.disconnect true).2.disconnect true).1
        = (TuxDriver.init.disconnect true).1
    ∧ (((TuxDriver.init.disconnect true).2.disconnect true).2).is_connected
        = false
    ∧ (MockTuxDriver.init.disconnect).1 = true
    ∧ ((MockTuxDriver.init.disconnect).2).is_connected = false
    ∧ ((MockTuxDriver.init.disconnect).2.disconnect).1 = true
    ∧ (((MockTuxDriver.init.disconnect).2.disconnect).2).is_connected
        = false :=
  disconnect_idempotent TuxDriver.init true MockTuxDriver.init
    (fun _ => rfl)

/-- C10 counterexample: on a connected mock driver, SPIN_LEFT with the
string angle value "fast" makes execute_action raise (int minus str is a
TypeError in the rotation update, modelled as none) instead of returning
True and logging, so the claim over every action and params is false. -/
theorem mock_execute_spin_string_raises :
    (MockTuxDriver.mk true initDeviceState []).connected = true
    ∧ (MockTuxDriver.mk true initDeviceState []).execute_action
        ⟨.SPIN_LEFT, [("angle", .str "fast")]⟩ = none := by
  decide

/-- C10 amended: on the mock driver, a disconnected execute_action
returns False with state and history untouched; a connected
execute_action whose state update does not raise (every action except a
spin with a string angle) returns True and appends exactly one history
entry whose snapshot is the post-update device state. -/
theorem mock_execute_behavior (a : TuxAction) (st : MockTuxDriver) :
    (st.connected = false → st.execute_action a = some (false, st))
    ∧ (∀ s2 msg, st.connected = true →
        update_state a.action_type a.params st.state = some (s2, msg) →
        st.execute_action a = some (true,
          { st with
              state := s2,
              action_history := st.action_history
                ++ [⟨a.action_type.value, a.params, msg, s2⟩] })) := by
  refine ⟨?_, ?_⟩
  · intro h
    simp [MockTuxDriver.execute_action, h]
  · intro s2 msg hc hu
    simp [MockTuxDriver.execute_action, hc, hu]

/-- C10 witness: the amended behavior theorem applied to OPEN_EYES on the
disconnected fresh mock and on a connected mock. -/
theorem mock_execute_behavior_witness :
    MockTuxDriver.init.execute_action ⟨.OPEN_EYES, []⟩
      = some (false, MockTuxDriver.init)
    ∧ (MockTuxDriver.mk true initDeviceState []).execute_action
        ⟨.OPEN_EYES, []⟩
      = some (true, MockTuxDriver.mk true
          { initDeviceState with eyes := "open" }
          [⟨"open_eyes", [], "Eyes are now open",
            { initDeviceState with eyes := "open" }⟩]) :=
  ⟨(mock_execute_behavior ⟨.OPEN_EYES, []⟩ MockTuxDriver.init).1 rfl,
   (mock_execute_behavior ⟨.OPEN_EYES, []⟩
      (MockTuxDriver.mk true initDeviceState [])).2
     { initDeviceState with eyes := "open" } "Eyes are now open"
     rfl (by decide)⟩
